import Mathlib

/-!
Shallow embedding of `src/main.py` (a PostgreSQL MCP adapter) and proofs of
the specification claims about it.

The source is four async tool handlers (`health_check`, `list_tables`,
`get_table_schema`, `execute_query`) over a lazily created global connection
pool (`get_db_pool`) that is closed on shutdown (`app_lifespan`).

Modelling choices:
- A database value is a list of tables, each a name with an ordered list of
  `(column_name, data_type)` pairs.  The catalog statements the source sends
  (`SELECT tablename FROM pg_tables where tablename not like ...` and
  `SELECT column_name, data_type FROM information_schema.columns WHERE
  table_name = $1`) are evaluated over this model by `evalListTables` and
  `evalTableSchema`, with SQL `LIKE` given its standard semantics
  (`_` matches any single character, `%` any sequence) by `likeMatch`.
- The connection pool is a list of available connections plus a closed flag;
  `async with db.acquire()` is embedded as `withConn`, which leases the head
  connection, runs the body, and returns the connection on every exit path
  (the guarantee the context manager provides), returning `none` when no
  connection is available (the caller would suspend).
- A database interaction that may raise is an `Except DBError` value; the
  handlers' lack of try/except (except in `health_check`) shows up as the
  error flowing through unchanged.
- Python `dict(row)` is `dictOfPairs`: first-occurrence key order, last
  value wins.
- The global `db_pool` is threaded explicitly as an `Option` state through
  `get_db_pool`; the async interleaving of concurrent `get_db_pool` calls is
  a small step machine (`Sys`, `stepTask`, `runSched`) whose atomic segments
  are the code regions between awaits.
-/

/-- Errors an underlying database call can raise: connection-level failures,
query-level failures (malformed SQL etc.), or task cancellation. -/
inductive DBError where
  | connError : DBError
  | queryError : String → DBError
  | cancelled : DBError
deriving DecidableEq, Repr

/-- Errors raised while creating the pool (database unreachable or
credentials rejected), per the spec taxonomy for `acquire_pool`. -/
inductive ConnError where
  | unreachable : ConnError
  | badCredentials : ConnError
deriving DecidableEq, Repr

/-- A database value: integers, text, or SQL NULL (enough for the claims). -/
inductive Value where
  | int : Int → Value
  | text : String → Value
  | vnull : Value
deriving DecidableEq, Repr

/-- A fetched row: ordered (column name, value) pairs as returned by the
driver (`asyncpg.Record` preserves result-column order). -/
abbrev Row := List (String × Value)

/-- A Python dict, as produced by `dict(row)`: ordered key/value pairs with
distinct keys. -/
abbrev Dict := List (String × Value)

/-- Insert one key/value pair with Python dict semantics: an existing key is
updated in place, a new key is appended. -/
def dictInsert (d : Dict) (k : String) (v : Value) : Dict :=
  if d.any (fun kv => kv.1 = k) then
    d.map (fun kv => if kv.1 = k then (k, v) else kv)
  else
    d ++ [(k, v)]

/-- `dict(row)` in Python: fold the pairs left to right, keys keep their
first-occurrence position, a repeated key keeps the last value. -/
def dictOfPairs (r : Row) : Dict :=
  r.foldl (fun d kv => dictInsert d kv.1 kv.2) []

/-- One table of the model database: its name and its columns in declared
order, each a `(column_name, data_type)` pair. -/
structure Table where
  name : String
  columns : List (String × String)
deriving DecidableEq, Repr

/-- The model database state: the tables visible in `pg_tables` /
`information_schema.columns`. -/
abbrev DB := List Table

/-- Does `f` accept some suffix of the string?  Used for the SQL `LIKE`
wildcard `%`, which absorbs any (possibly empty) leading sequence. -/
def anySuffix (f : List Char → Bool) : List Char → Bool
  | [] => f []
  | c :: s => f (c :: s) || anySuffix f s

/-- SQL `LIKE` matcher on character lists: `_` matches exactly one
character, `%` matches any (possibly empty) sequence, any other pattern
character matches itself. -/
def likeMatch : List Char → List Char → Bool
  | [], s => s.isEmpty
  | '%' :: ps, s => anySuffix (likeMatch ps) s
  | '_' :: ps, s =>
    match s with
    | [] => false
    | _ :: s2 => likeMatch ps s2
  | p :: ps, s =>
    match s with
    | [] => false
    | c :: s2 => (p = c) && likeMatch ps s2

/-- The `LIKE` pattern the source uses to drop postgres-internal tables. -/
def likePgPattern : List Char := "pg_%".data

/-- The `LIKE` pattern the source uses to drop SQL-standard tables. -/
def likeSqlPattern : List Char := "sql_%".data

/-- Semantics of the exact statement `list_tables` sends:
`SELECT tablename FROM pg_tables where tablename not like` the pg pattern
`and tablename not like` the sql pattern.  One single-column row per
surviving table, in catalog order. -/
def evalListTables (db : DB) : List Row :=
  ((db.map Table.name).filter
      (fun n => !(likeMatch likePgPattern n.data) && !(likeMatch likeSqlPattern n.data))).map
    (fun n => [("tablename", Value.text n)])

/-- Semantics of the exact statement `get_table_schema` sends:
`SELECT column_name, data_type FROM information_schema.columns WHERE
table_name = $1` — every column of every table named `tn`, in declared
order. -/
def evalTableSchema (db : DB) (tn : String) : List Row :=
  ((db.filter (fun t => t.name = tn)).map
      (fun t => t.columns.map
        (fun c => [("column_name", Value.text c.1), ("data_type", Value.text c.2)]))).flatten

/-- A pooled connection (identity only). -/
abbrev Conn := Nat

/-- The connection pool: the multiset of currently available connections and
whether the pool has been closed. -/
structure Pool where
  conns : List Conn
  closed : Bool
deriving DecidableEq, Repr

/-- `async with db.acquire() as conn: body` — lease the next available
connection, run the body, and return the connection to the pool on every
exit path (normal, error, cancellation), exactly what the context manager
guarantees.  `none` means no connection is available and the call would
suspend. -/
def withConn (p : Pool) (body : Conn → α) : Option (α × Pool) :=
  match p.conns with
  | [] => none
  | c :: rest => some (body c, { p with conns := rest ++ [c] })

/-- The fixed success mapping `health_check` returns. -/
def healthyDict : Dict :=
  [("status", Value.text "healthy"), ("database", Value.text "connected")]

/-- The fixed failure mapping `health_check` returns; it never depends on
the underlying error. -/
def unavailableDict : Dict :=
  [("status", Value.text "error"), ("error", Value.text "Service unavailable")]

/-- `health_check`: acquire a connection, run the liveness statement
(`exec c` is the outcome of `await conn.execute` of the trivial statement on
that connection), and catch every exception, mapping success and failure to
the two fixed dicts.  The return type has no error component: the handler
cannot propagate an exception. -/
def health_check (p : Pool) (exec : Conn → Except DBError Unit) : Option (Dict × Pool) :=
  (withConn p exec).map
    (fun rp =>
      match rp.1 with
      | Except.ok _ => (healthyDict, rp.2)
      | Except.error _ => (unavailableDict, rp.2))

/-- `list_tables`: acquire a connection, `fetch` the catalog statement —
`oc` is the interaction outcome: either an exception or the reachable
database state the statement is evaluated against — and return
`dict(row)` per row.  No try/except: an error flows to the caller. -/
def list_tables (p : Pool) (oc : Except DBError DB) :
    Option (Except DBError (List Dict) × Pool) :=
  withConn p (fun _ => oc.map (fun db => (evalListTables db).map dictOfPairs))

/-- `get_table_schema`: acquire a connection, `fetch` the parameterized
information-schema statement bound to `tn`, and return `dict(row)` per row.
No try/except: an error flows to the caller. -/
def get_table_schema (p : Pool) (oc : Except DBError DB) (tn : String) :
    Option (Except DBError (List Dict) × Pool) :=
  withConn p (fun _ => oc.map (fun db => (evalTableSchema db tn).map dictOfPairs))

/-- `execute_query`: acquire a connection, `fetch` the caller-supplied query
string verbatim (`fetch` is the backend: what the database returns or raises
for each statement), and return `dict(row)` per row.  No try/except: an
error flows to the caller. -/
def execute_query (p : Pool) (fetch : String → Except DBError (List Row)) (q : String) :
    Option (Except DBError (List Dict) × Pool) :=
  withConn p (fun _ => (fetch q).map (fun rows => rows.map dictOfPairs))

/-- `get_db_pool`, one sequential call: `g` is the global `db_pool`
variable, `attempt n` the outcome of the `n`-th pool-creation attempt the
environment would supply.  The code consults only `attempt 0`: if the global
is set it is returned untouched; otherwise one creation is attempted, its
pool stored on success, and its exception re-raised (after logging) on
failure, leaving the global unset. -/
def get_db_pool (g : Option Nat) (attempt : Nat → Except ConnError Nat) :
    Except ConnError Nat × Option Nat :=
  match g with
  | some p => (Except.ok p, some p)
  | none =>
    match attempt 0 with
    | Except.ok p => (Except.ok p, some p)
    | Except.error e => (Except.error e, none)

/-- Where a concurrent `get_db_pool` call stands: about to run the
`db_pool is None` check, suspended awaiting `create_pool`, or returned with
a pool id. -/
inductive Phase where
  | start : Phase
  | creating : Phase
  | done : Nat → Phase
deriving DecidableEq, Repr

/-- Process state for concurrent `get_db_pool` calls: the global `db_pool`,
how many pools have been constructed, the next fresh pool id, and each
task's phase. -/
structure Sys where
  global : Option Nat
  constructed : Nat
  nextId : Nat
  tasks : List Phase
deriving DecidableEq, Repr

/-- Advance task `i` by one atomic segment (the code between awaits):
from `start`, run the `is None` check — finish immediately with the stored
pool, or begin awaiting `create_pool`; from `creating`, the awaited creation
completes — a new pool is constructed, assigned to the global, and
returned.  A finished or absent task is left unchanged. -/
def stepTask (s : Sys) (i : Nat) : Sys :=
  match s.tasks[i]? with
  | none => s
  | some Phase.start =>
    match s.global with
    | some p => { s with tasks := s.tasks.set i (Phase.done p) }
    | none => { s with tasks := s.tasks.set i Phase.creating }
  | some Phase.creating =>
    { global := some s.nextId
      constructed := s.constructed + 1
      nextId := s.nextId + 1
      tasks := s.tasks.set i (Phase.done s.nextId) }
  | some (Phase.done _) => s

/-- Run a cooperative schedule: at each step the named task runs its next
atomic segment. -/
def runSched (s : Sys) (sched : List Nat) : Sys :=
  sched.foldl stepTask s

/-- Two first-time callers, nothing constructed yet. -/
def initTwoCallers : Sys :=
  { global := none, constructed := 0, nextId := 0, tasks := [Phase.start, Phase.start] }

/-- Modelled from the spec: `shutdown_pool` is implemented by the
third-party pool library (the source only calls `db.close()` once in
`app_lifespan`), so its behavior is taken from the spec contract — closing
closes all connections; closing an already closed pool returns at once
without raising.  Totality of this function is the no-raise/no-hang
guarantee. -/
def Pool.close (p : Pool) : Pool :=
  if p.closed then p else { conns := [], closed := true }

/-- A tiny concrete backend used to exercise `execute_query`: it answers
the statement `SELECT 1 AS x` with the single row `x = 1` and raises a
syntax error for anything else, the way the database answers those two
statements. -/
def sel1Backend (q : String) : Except DBError (List Row) :=
  if q = "SELECT 1 AS x" then Except.ok [[("x", Value.int 1)]]
  else Except.error (DBError.queryError "syntax error")

/-! ### Helper lemmas -/

lemma anySuffix_likeMatch_nil (l : List Char) : anySuffix (likeMatch []) l = true := by
  induction l with
  | nil => rfl
  | cons c r ih =>
    show (likeMatch [] (c :: r) || anySuffix (likeMatch []) r) = true
    rw [show likeMatch [] (c :: r) = false from rfl, Bool.false_or]
    exact ih

/-- The pattern the source writes as pg underscore percent matches exactly
the names that begin with the two characters `pg` followed by at least one
further character: the `_` is a wildcard, not a literal underscore. -/
lemma likeMatch_pg_eq (l : List Char) :
    likeMatch likePgPattern l = ("pg".data.isPrefixOf l && decide (3 ≤ l.length)) := by
  rcases l with _ | ⟨a, l⟩
  · decide
  rcases l with _ | ⟨b, l⟩
  · show (decide ('p' = a) && false) = _
    simp [List.isPrefixOf]
  rcases l with _ | ⟨c, l⟩
  · show (decide ('p' = a) && (decide ('g' = b) && false)) = _
    simp [List.isPrefixOf]
  · show (decide ('p' = a) && (decide ('g' = b) && anySuffix (likeMatch []) l)) = _
    rw [anySuffix_likeMatch_nil, Bool.eq_iff_iff]
    simp [List.isPrefixOf]

/-- Likewise for the sql pattern: it matches exactly the names beginning
with `sql` followed by at least one further character. -/
lemma likeMatch_sql_eq (l : List Char) :
    likeMatch likeSqlPattern l = ("sql".data.isPrefixOf l && decide (4 ≤ l.length)) := by
  rcases l with _ | ⟨a, l⟩
  · decide
  rcases l with _ | ⟨b, l⟩
  · show (decide ('s' = a) && false) = _
    simp [List.isPrefixOf]
  rcases l with _ | ⟨c, l⟩
  · show (decide ('s' = a) && (decide ('q' = b) && false)) = _
    simp [List.isPrefixOf]
  rcases l with _ | ⟨d, l⟩
  · show (decide ('s' = a) && (decide ('q' = b) && (decide ('l' = c) && false))) = _
    simp [List.isPrefixOf]
  · show (decide ('s' = a) && (decide ('q' = b) && (decide ('l' = c) && anySuffix (likeMatch []) l))) = _
    rw [anySuffix_likeMatch_nil, Bool.eq_iff_iff]
    simp [List.isPrefixOf]

/-- Python `dict` of a single pair is that pair. -/
lemma dictOfPairs_single (k : String) (v : Value) : dictOfPairs [(k, v)] = [(k, v)] := rfl

/-- Python `dict` of two pairs with distinct keys keeps both in order. -/
lemma dictOfPairs_two (k1 k2 : String) (v1 v2 : Value) (h : k1 ≠ k2) :
    dictOfPairs [(k1, v1), (k2, v2)] = [(k1, v1), (k2, v2)] := by
  simp [dictOfPairs, dictInsert, h, Ne.symm h]

/-! ### Claim theorems -/

/-- Claim C1: `health_check` never propagates an exception to the caller
(its result type carries no error and it is a total function of the
interaction outcome): whenever a connection is available, if the trivial
liveness statement succeeds it returns exactly
`{status: healthy, database: connected}`, and on any underlying failure it
returns exactly `{status: error, error: Service unavailable}` — the same
fixed mapping for every error, so the error text is never exposed. -/
theorem health_check_spec (p : Pool) (exec : Conn → Except DBError Unit)
    (c : Conn) (rest : List Conn) (h : p.conns = c :: rest) :
    (∀ u, exec c = Except.ok u →
      health_check p exec = some (healthyDict, { p with conns := rest ++ [c] })) ∧
    (∀ e, exec c = Except.error e →
      health_check p exec = some (unavailableDict, { p with conns := rest ++ [c] })) := by
  constructor <;> intro x hx <;> simp [health_check, withConn, h, hx]

/-- Witness for C1: on a one-connection pool, a successful liveness probe
yields the healthy mapping and a failing one yields the fixed error
mapping. -/
theorem health_check_spec_witness :
    health_check ⟨[0], false⟩ (fun _ => Except.ok ()) =
      some (healthyDict, ⟨[0], false⟩) ∧
    health_check ⟨[0], false⟩ (fun _ => Except.error DBError.connError) =
      some (unavailableDict, ⟨[0], false⟩) :=
  ⟨(health_check_spec ⟨[0], false⟩ (fun _ => Except.ok ()) 0 [] rfl).1 () rfl,
   (health_check_spec ⟨[0], false⟩ (fun _ => Except.error DBError.connError) 0 [] rfl).2
     DBError.connError rfl⟩

/-- Claim C6: with the global pool unset, if pool creation fails then
`get_db_pool` returns exactly that error (logged and re-raised, not
swallowed) and stores nothing; moreover the call's outcome depends only on
the first creation attempt — no retry is made within the call. -/
theorem get_db_pool_error_spec (attempt : Nat → Except ConnError Nat) (e : ConnError)
    (h : attempt 0 = Except.error e) :
    get_db_pool none attempt = (Except.error e, none) ∧
    (∀ attempt2, attempt2 0 = attempt 0 →
      get_db_pool none attempt2 = get_db_pool none attempt) := by
  refine ⟨by simp [get_db_pool, h], ?_⟩
  intro attempt2 h2
  simp [get_db_pool, h2]

/-- Witness for C6: an unreachable database makes `get_db_pool` fail with
that connection error and leaves the global unset. -/
theorem get_db_pool_error_spec_witness :
    get_db_pool none (fun _ => Except.error ConnError.unreachable) =
      (Except.error ConnError.unreachable, none) :=
  (get_db_pool_error_spec (fun _ => Except.error ConnError.unreachable)
    ConnError.unreachable rfl).1

/-- Claim C9: closing the pool is idempotent — closing an already closed
pool changes nothing (and, the function being total, neither raises nor
hangs) — and after a close the pool is closed. -/
theorem pool_close_idempotent (p : Pool) :
    Pool.close (Pool.close p) = Pool.close p ∧ (Pool.close p).closed = true := by
  by_cases hp : p.closed <;> simp [Pool.close, hp]

/-- Claim C10: if creation fails inside `get_db_pool`, the global pool
variable is left unset — no partially initialized pool is stored — and a
subsequent call attempts creation again from scratch, succeeding if its own
creation attempt succeeds. -/
theorem get_db_pool_failure_resets (attempt attempt2 : Nat → Except ConnError Nat)
    (e : ConnError) (pid : Nat) (h1 : attempt 0 = Except.error e)
    (h2 : attempt2 0 = Except.ok pid) :
    (get_db_pool none attempt).2 = none ∧
    get_db_pool (get_db_pool none attempt).2 attempt2 = (Except.ok pid, some pid) := by
  simp [get_db_pool, h1, h2]

/-- Witness for C10: a failed first call stores nothing and a second call
creates the pool afresh. -/
theorem get_db_pool_failure_resets_witness :
    (get_db_pool none (fun _ => Except.error ConnError.badCredentials)).2 = none ∧
    get_db_pool (get_db_pool none (fun _ => Except.error ConnError.badCredentials)).2
        (fun _ => Except.ok 7) = (Except.ok 7, some 7) :=
  get_db_pool_failure_resets (fun _ => Except.error ConnError.badCredentials)
    (fun _ => Except.ok 7) ConnError.badCredentials 7 rfl rfl

/-- Claim C2: whenever a connection is available and the catalog query
succeeds against database state `db`, `get_table_schema` returns the
ordered `{column_name, data_type}` mappings of the uniquely named table, one
per column in declared order, and returns the empty sequence — wrapped in a
success, not an error — when no table of that name exists. -/
theorem get_table_schema_spec (p : Pool) (c : Conn) (rest : List Conn)
    (h : p.conns = c :: rest) (db : DB) (tn : String) :
    (∀ t, db.filter (fun t2 => t2.name = tn) = [t] →
      (get_table_schema p (Except.ok db) tn).map Prod.fst =
        some (Except.ok (t.columns.map (fun col =>
          [("column_name", Value.text col.1), ("data_type", Value.text col.2)])))) ∧
    ((∀ t ∈ db, t.name ≠ tn) →
      (get_table_schema p (Except.ok db) tn).map Prod.fst = some (Except.ok [])) := by
  constructor
  · intro t ht
    simp [get_table_schema, withConn, h, evalTableSchema, Except.map, ht, List.map_map]
    intro a b _
    exact dictOfPairs_two _ _ _ _ (by decide)
  · intro hnone
    have hfil : db.filter (fun t2 => t2.name = tn) = [] := by
      refine List.filter_eq_nil_iff.mpr ?_
      intro t htmem
      simpa using hnone t htmem
    simp [get_table_schema, withConn, h, evalTableSchema, Except.map, hfil]

/-- Witness for C2: a table `t` declared with columns `(id integer,
name text)` yields exactly the two mappings in declared order, and a
missing table yields the empty sequence. -/
theorem get_table_schema_spec_witness :
    (get_table_schema ⟨[0], false⟩
        (Except.ok [⟨"t", [("id", "integer"), ("name", "text")]⟩]) "t").map Prod.fst =
      some (Except.ok
        [[("column_name", Value.text "id"), ("data_type", Value.text "integer")],
         [("column_name", Value.text "name"), ("data_type", Value.text "text")]]) ∧
    (get_table_schema ⟨[0], false⟩
        (Except.ok [⟨"t", [("id", "integer"), ("name", "text")]⟩]) "missing").map Prod.fst =
      some (Except.ok []) :=
  ⟨(get_table_schema_spec ⟨[0], false⟩ 0 []
      rfl [⟨"t", [("id", "integer"), ("name", "text")]⟩] "t").1
      ⟨"t", [("id", "integer"), ("name", "text")]⟩ (by decide),
   (get_table_schema_spec ⟨[0], false⟩ 0 []
      rfl [⟨"t", [("id", "integer"), ("name", "text")]⟩] "missing").2 (by decide)⟩

/-- Counterexample to claim C3 as stated: a table named `pgx` starts with
neither of the reserved internal prefixes written in the statement (pg
underscore, sql underscore), yet `list_tables` omits it, because the SQL
`LIKE` underscore is a single-character wildcard rather than a literal. -/
theorem list_tables_claim_counterexample :
    (list_tables ⟨[0], false⟩ (Except.ok [⟨"pgx", []⟩])).map Prod.fst =
      some (Except.ok []) ∧
    "pg_".data.isPrefixOf "pgx".data = false ∧
    "sql_".data.isPrefixOf "pgx".data = false :=
  ⟨rfl, rfl, rfl⟩

/-- Claim C3 as amended: whenever a connection is available and the catalog
query succeeds against database state `db`, `list_tables` returns exactly
the table names that do not match the internal patterns — a name is
excluded precisely when it begins with `pg` followed by at least one
further character, or with `sql` followed by at least one further
character — as ordered `{tablename}` mappings; in particular on tables
`{orders, pg_stat_x, sql_features}` only `orders` is returned. -/
theorem list_tables_amended (p : Pool) (c : Conn) (rest : List Conn)
    (h : p.conns = c :: rest) (db : DB) :
    (list_tables p (Except.ok db)).map Prod.fst =
      some (Except.ok (((db.map Table.name).filter
          (fun n => !(("pg".data.isPrefixOf n.data && decide (3 ≤ n.data.length)) ||
                      ("sql".data.isPrefixOf n.data && decide (4 ≤ n.data.length))))).map
        (fun n => [("tablename", Value.text n)]))) ∧
    (list_tables ⟨[0], false⟩
        (Except.ok [⟨"orders", []⟩, ⟨"pg_stat_x", []⟩, ⟨"sql_features", []⟩])).map Prod.fst =
      some (Except.ok [[("tablename", Value.text "orders")]]) := by
  constructor
  · have hfilter : ∀ n : String,
        (!(likeMatch likePgPattern n.data) && !(likeMatch likeSqlPattern n.data)) =
          !(("pg".data.isPrefixOf n.data && decide (3 ≤ n.data.length)) ||
            ("sql".data.isPrefixOf n.data && decide (4 ≤ n.data.length))) := by
      intro n
      rw [likeMatch_pg_eq, likeMatch_sql_eq, Bool.not_or]
    have hfun : (fun n : String =>
          !(likeMatch likePgPattern n.data) && !(likeMatch likeSqlPattern n.data)) =
        (fun n => !(("pg".data.isPrefixOf n.data && decide (3 ≤ n.data.length)) ||
                    ("sql".data.isPrefixOf n.data && decide (4 ≤ n.data.length)))) :=
      funext hfilter
    simp only [list_tables, withConn, h, Except.map, evalListTables, List.map_map, Option.map]
    rw [hfun]
    exact congrArg some (congrArg Except.ok (List.map_congr_left (fun a _ => rfl)))
  · rfl

/-- Witness for the amended C3: on tables `{orders, pg_stat_x,
sql_features}` the prefix characterization evaluates to keeping exactly
`orders`. -/
theorem list_tables_amended_witness :
    (list_tables ⟨[0], false⟩
        (Except.ok [⟨"orders", []⟩, ⟨"pg_stat_x", []⟩, ⟨"sql_features", []⟩])).map Prod.fst =
      some (Except.ok [[("tablename", Value.text "orders")]]) :=
  (list_tables_amended ⟨[0], false⟩ 0 [] rfl
      [⟨"orders", []⟩, ⟨"pg_stat_x", []⟩, ⟨"sql_features", []⟩]).1

/-- Claim C4: `execute_query` passes the caller-supplied statement to the
backend verbatim — its whole behavior is a function of the backend's answer
to exactly the string `q`, with no rewriting and no restriction — and
whenever a connection is available it returns one `dict` per returned row
on success and propagates the backend's query error unchanged on
failure. -/
theorem execute_query_spec (p : Pool) (c : Conn) (rest : List Conn)
    (h : p.conns = c :: rest) (fetch : String → Except DBError (List Row)) (q : String) :
    (∀ fetch2, fetch2 q = fetch q →
      execute_query p fetch2 q = execute_query p fetch q) ∧
    (∀ rows, fetch q = Except.ok rows →
      (execute_query p fetch q).map Prod.fst = some (Except.ok (rows.map dictOfPairs))) ∧
    (∀ e, fetch q = Except.error e →
      (execute_query p fetch q).map Prod.fst = some (Except.error e)) := by
  refine ⟨?_, ?_, ?_⟩ <;> intro x hx <;>
    simp [execute_query, withConn, h, Except.map, hx]

/-- Witness for C4: against a backend answering `SELECT 1 AS x`, the query
returns `[{x: 1}]`, and a misspelled statement propagates the backend's
query error. -/
theorem execute_query_spec_witness :
    (execute_query ⟨[0], false⟩ sel1Backend "SELECT 1 AS x").map Prod.fst =
      some (Except.ok [[("x", Value.int 1)]]) ∧
    (execute_query ⟨[0], false⟩ sel1Backend "SELEC 1").map Prod.fst =
      some (Except.error (DBError.queryError "syntax error")) :=
  ⟨(execute_query_spec ⟨[0], false⟩ 0 [] rfl sel1Backend "SELECT 1 AS x").2.1
      [[("x", Value.int 1)]] rfl,
   (execute_query_spec ⟨[0], false⟩ 0 [] rfl sel1Backend "SELEC 1").2.2
      (DBError.queryError "syntax error") rfl⟩

/-- Claim C5: whenever a connection is available, each of `list_tables`,
`get_table_schema` and `execute_query` surfaces an underlying failure
unchanged (the very same error value, no local recovery, no retry), and on
success returns the complete row sequence — there is no partial result: the
call is all-or-nothing. -/
theorem tools_surface_errors (p : Pool) (c : Conn) (rest : List Conn)
    (h : p.conns = c :: rest) (oc : Except DBError DB) (tn : String)
    (fetch : String → Except DBError (List Row)) (q : String) :
    (∀ e, oc = Except.error e →
      (list_tables p oc).map Prod.fst = some (Except.error e) ∧
      (get_table_schema p oc tn).map Prod.fst = some (Except.error e)) ∧
    (∀ e, fetch q = Except.error e →
      (execute_query p fetch q).map Prod.fst = some (Except.error e)) ∧
    (∀ db, oc = Except.ok db →
      (list_tables p oc).map Prod.fst =
        some (Except.ok ((evalListTables db).map dictOfPairs)) ∧
      (get_table_schema p oc tn).map Prod.fst =
        some (Except.ok ((evalTableSchema db tn).map dictOfPairs))) ∧
    (∀ rows, fetch q = Except.ok rows →
      (execute_query p fetch q).map Prod.fst =
        some (Except.ok (rows.map dictOfPairs))) := by
  refine ⟨?_, ?_, ?_, ?_⟩ <;> intro x hx <;>
    simp [list_tables, get_table_schema, execute_query, withConn, h, Except.map, hx]

/-- Witness for C5: a connection failure during the catalog fetch comes back
to the caller as exactly that error for both catalog tools. -/
theorem tools_surface_errors_witness :
    (list_tables ⟨[0], false⟩ (Except.error DBError.connError)).map Prod.fst =
      some (Except.error DBError.connError) ∧
    (get_table_schema ⟨[0], false⟩ (Except.error DBError.connError) "t").map Prod.fst =
      some (Except.error DBError.connError) :=
  (tools_surface_errors ⟨[0], false⟩ 0 [] rfl (Except.error DBError.connError) "t"
    (fun _ => Except.ok []) "q").1 DBError.connError rfl

/-- Claim C7 is violated by the code: under the cooperative schedule in
which both first-time callers run the `db_pool is None` check before either
pool creation completes (schedule 0, 1, 0, 1 over the two-task initial
state), two pools are constructed and the callers receive different pools;
a non-overlapping schedule (0, 0, 1) constructs only one.  This is the race
of the unguarded check-then-create pattern. -/
theorem get_db_pool_race_two_pools :
    (runSched initTwoCallers [0, 1, 0, 1]).constructed = 2 ∧
    (runSched initTwoCallers [0, 1, 0, 1]).tasks = [Phase.done 0, Phase.done 1] ∧
    (runSched initTwoCallers [0, 0, 1]).constructed = 1 := by
  decide

/-- Any operation body run through `withConn` leaves the pool with the same
set of available connections (a permutation of the originals) and the same
closed flag, whatever the body did. -/
lemma withConn_pool {α : Type} (p : Pool) (c : Conn) (rest : List Conn)
    (h : p.conns = c :: rest) (body : Conn → α) :
    ∀ r p2, withConn p body = some (r, p2) →
      p2.conns.Perm p.conns ∧ p2.closed = p.closed := by
  intro r p2 hp2
  simp [withConn, h] at hp2
  obtain ⟨-, rfl⟩ := hp2
  refine ⟨?_, rfl⟩
  rw [h]
  exact List.perm_append_singleton c rest

/-- Claim C8: each tool operation acquires one connection for its duration
and returns it on every exit path — the interaction outcome is arbitrary
here, covering normal completion, query errors, and cancellation
(`DBError.cancelled`) — so whenever an invocation completes, the pool's set
of available connections (and its closed flag) is restored to its pre-call
state. -/
theorem connection_release_spec (p : Pool) (c : Conn) (rest : List Conn)
    (h : p.conns = c :: rest) (exec : Conn → Except DBError Unit)
    (oc : Except DBError DB) (tn : String)
    (fetch : String → Except DBError (List Row)) (q : String) :
    (∀ d p2, health_check p exec = some (d, p2) →
      p2.conns.Perm p.conns ∧ p2.closed = p.closed) ∧
    (∀ r p2, list_tables p oc = some (r, p2) →
      p2.conns.Perm p.conns ∧ p2.closed = p.closed) ∧
    (∀ r p2, get_table_schema p oc tn = some (r, p2) →
      p2.conns.Perm p.conns ∧ p2.closed = p.closed) ∧
    (∀ r p2, execute_query p fetch q = some (r, p2) →
      p2.conns.Perm p.conns ∧ p2.closed = p.closed) := by
  refine ⟨?_, ?_, ?_, ?_⟩
  · intro d p2 hp2
    unfold health_check at hp2
    obtain ⟨⟨r0, p0⟩, hw, hg⟩ := Option.map_eq_some'.mp hp2
    have hp0 : p2 = p0 := by
      cases r0 <;> simp at hg <;> exact hg.2.symm
    rw [hp0]
    exact withConn_pool p c rest h exec r0 p0 hw
  · intro r p2 hp2
    exact withConn_pool p c rest h _ r p2 hp2
  · intro r p2 hp2
    exact withConn_pool p c rest h _ r p2 hp2
  · intro r p2 hp2
    exact withConn_pool p c rest h _ r p2 hp2

/-- Witness for C8: a cancelled liveness probe on the pool `{5, 7}` still
hands its connection back — the post-call pool is a permutation of the
pre-call pool with the same closed flag. -/
theorem connection_release_spec_witness :
    List.Perm (Pool.conns ⟨[7, 5], false⟩) (Pool.conns ⟨[5, 7], false⟩) ∧
    Pool.closed ⟨[7, 5], false⟩ = Pool.closed ⟨[5, 7], false⟩ :=
  (connection_release_spec ⟨[5, 7], false⟩ 5 [7] rfl
      (fun _ => Except.error DBError.cancelled) (Except.ok []) "t"
      (fun _ => Except.ok []) "SELECT 1").1 unavailableDict ⟨[7, 5], false⟩ rfl
